import Mathlib

/-!
Verification development for the Kudu client scan-batch row accessor
(`kudu/client/scan_batch.cc`): a typed row accessor over a fixed-layout
binary row encoding. We embed the row view's getters, null predicate,
deleted-row predicate, decimal widening and CSV rendering, and prove the
specification's properties about them.
-/

namespace KuduScanBatch

/-- The closed set of logical column types (`kudu::DataType`). -/
inductive DataType where
  | BOOL
  | INT8
  | INT16
  | INT32
  | INT64
  | INT128
  | UNIXTIME_MICROS
  | DATE
  | FLOAT
  | DOUBLE
  | STRING
  | BINARY
  | VARCHAR
  | DECIMAL32
  | DECIMAL64
  | DECIMAL128
  | IS_DELETED
  deriving DecidableEq, Repr

/-- `TypeInfo::name()`: the printable name of a logical type. -/
def DataType.typeName : DataType → String
  | .BOOL => "bool"
  | .INT8 => "int8"
  | .INT16 => "int16"
  | .INT32 => "int32"
  | .INT64 => "int64"
  | .INT128 => "int128"
  | .UNIXTIME_MICROS => "unixtime_micros"
  | .DATE => "date"
  | .FLOAT => "float"
  | .DOUBLE => "double"
  | .STRING => "string"
  | .BINARY => "binary"
  | .VARCHAR => "varchar"
  | .DECIMAL32 => "decimal32"
  | .DECIMAL64 => "decimal64"
  | .DECIMAL128 => "decimal128"
  | .IS_DELETED => "is_deleted"

/-- `TypeInfo::size()`: the byte width of the fixed-width slot for a type
(for variable-length types this is the width of the inline `Slice`
reference descriptor, 16 bytes on a 64-bit platform, not the payload). -/
def DataType.typeSize : DataType → Nat
  | .BOOL => 1
  | .INT8 => 1
  | .INT16 => 2
  | .INT32 => 4
  | .INT64 => 8
  | .INT128 => 16
  | .UNIXTIME_MICROS => 8
  | .DATE => 4
  | .FLOAT => 4
  | .DOUBLE => 8
  | .STRING => 16
  | .BINARY => 16
  | .VARCHAR => 16
  | .DECIMAL32 => 4
  | .DECIMAL64 => 8
  | .DECIMAL128 => 16
  | .IS_DELETED => 1

/-- The physical width, in bytes, of a decimal type; `none` for every
non-decimal type. -/
def DataType.decimalWidth : DataType → Option Nat
  | .DECIMAL32 => some 4
  | .DECIMAL64 => some 8
  | .DECIMAL128 => some 16
  | _ => none

/-- One column descriptor of the schema (`kudu::ColumnSchema`): a unique
name, a logical type and a nullability flag. -/
structure ColumnSchema where
  name : String
  type : DataType
  nullable : Bool
  deriving DecidableEq, Repr

/-- Placeholder column used only to totalize out-of-range indexing; the
source indexes columns under a bounds DCHECK, so theorems carry an
in-range hypothesis. -/
def defaultColumn : ColumnSchema := ⟨"", .BOOL, false⟩

/-- The schema (`kudu::Schema`): an ordered list of column descriptors.
Offsets and the total fixed-width size are derived from the type widths,
as the schema computes them cumulatively in declaration order. -/
structure Schema where
  columns : List ColumnSchema
  deriving Repr

def Schema.numColumns (s : Schema) : Nat := s.columns.length

def Schema.column (s : Schema) (i : Nat) : ColumnSchema :=
  s.columns.getD i defaultColumn

/-- `Schema::column_offset(i)`: byte offset of column `i` within the
fixed-width row region, the sum of the widths of the preceding columns. -/
def Schema.columnOffset (s : Schema) (i : Nat) : Nat :=
  ((s.columns.take i).map (fun c => c.type.typeSize)).sum

/-- `Schema::byte_size()`: total width of the fixed-width row region. -/
def Schema.byteSize (s : Schema) : Nat :=
  (s.columns.map (fun c => c.type.typeSize)).sum

/-- Modelled from the spec: `Schema::FindColumn` (declared in
`kudu/common/schema.h`, whose implementation is not among the sources
here) resolves a column name to its index, failing when the name is
absent from the schema. -/
def Schema.findColumn (s : Schema) (colName : String) : Option Nat :=
  s.columns.findIdx? (fun c => c.name == colName)

/-- Modelled from the spec: `Schema::first_is_deleted_virtual_column_idx`
(declared in `kudu/common/schema.h`, implementation not among the sources
here) returns the index of the schema's designated deleted-row virtual
column — the first column of type `IS_DELETED` — or a not-found marker
when the schema has none. -/
def Schema.firstIsDeletedVirtualColumnIdx (s : Schema) : Option Nat :=
  s.columns.findIdx? (fun c => c.type == .IS_DELETED)

/-- A row is modelled as the byte contents of `row_data_`: byte address
`a` (relative to the row pointer) holds `row a`. The fixed-width region
occupies addresses `0 ..< byteSize` and the null bitmap starts at
`byteSize`. -/
def Row : Type := Nat → Nat

/-- `BitmapTest(bm, idx)` from `kudu/util/bitmap.h`: bit `idx % 8` of
byte `idx / 8`. -/
def bitmapTest (bm : Nat → Nat) (idx : Nat) : Bool :=
  Nat.testBit (bm (idx / 8)) (idx % 8)

/-- `KuduScanBatch::RowPtr::IsNull(int)`: a non-nullable column is never
null; a nullable column tests bit `col_idx` of the bitmap stored at
`row_data_ + schema_->byte_size()`. -/
def isNull (sch : Schema) (row : Row) (colIdx : Nat) : Bool :=
  let col := sch.column colIdx
  if !col.nullable then false
  else bitmapTest (fun j => row (sch.byteSize + j)) colIdx

/-- `KuduScanBatch::RowPtr::IsNull(const Slice&)`: the source resolves
the name under `CHECK_OK`, which aborts the process when the column is
absent; the `none` result models that fatal CHECK failure (the function
itself returns a plain `bool` and has no error channel). -/
def isNullByName (sch : Schema) (row : Row) (colName : String) : Option Bool :=
  match sch.findColumn colName with
  | some i => some (isNull sch row i)
  | none => none

/-- The distinct failure modes of the row accessor, one constructor per
distinct `Status` the source constructs. -/
inductive GetError where
  | typeMismatch (requested colName actual : String)
  | valueIsNull
  | columnNotFound (colName : String)
  | notDecimal (actual colName : String)
  | isDeletedColumnMissing
  deriving DecidableEq, Repr

/-- The message string each failure carries, as the source builds it
(`BadTypeStatus` uses `Substitute` on the requested type name, the column
name and the actual type name). -/
def GetError.message : GetError → String
  | .typeMismatch requested colName actual =>
      "invalid type " ++ requested ++ " provided for column \x27" ++ colName
        ++ "\x27 (expected " ++ actual ++ ")"
  | .valueIsNull => "column is NULL"
  | .columnNotFound colName => "No such column: " ++ colName
  | .notDecimal actual colName =>
      "invalid type " ++ actual ++ " provided for column \x27" ++ colName
        ++ "\x27 (expected decimal)"
  | .isDeletedColumnMissing => "IS_DELETED virtual column not found"

/-- The `Status` category the source uses for each failure
(`BadTypeStatus` and the non-decimal failure are `InvalidArgument`; the
null value, missing column and missing virtual column are `NotFound`). -/
def GetError.statusKind : GetError → String
  | .typeMismatch _ _ _ => "InvalidArgument"
  | .valueIsNull => "NotFound"
  | .columnNotFound _ => "NotFound"
  | .notDecimal _ _ => "InvalidArgument"
  | .isDeletedColumnMissing => "NotFound"

/-- The body of `KuduScanBatch::RowPtr::Get<TypeTraits<t>>(int, val)`:
first the type check against the column's declared logical type
(`BadTypeStatus` on mismatch), then the null check for nullable columns,
then the `memcpy` of `sizeof(*val) = t.typeSize` bytes starting at
`row_data_ + schema_->column_offset(col_idx)`. On success the copied
bytes are returned. -/
def getBytes (sch : Schema) (row : Row) (colIdx : Nat) (t : DataType) :
    Except GetError (List Nat) :=
  let col := sch.column colIdx
  if col.type ≠ t then
    .error (.typeMismatch t.typeName col.name col.type.typeName)
  else if col.nullable && isNull sch row colIdx then
    .error .valueIsNull
  else
    .ok ((List.range t.typeSize).map (fun k => row (sch.columnOffset colIdx + k)))

/-- The typed getter with its destination made explicit: on success the
destination holds exactly the copied bytes, on failure it is left
untouched (the source returns before the `memcpy`). -/
def get (sch : Schema) (row : Row) (colIdx : Nat) (t : DataType)
    (dest : List Nat) : Except GetError Unit × List Nat :=
  match getBytes sch row colIdx t with
  | .ok bs => (.ok (), bs)
  | .error e => (.error e, dest)

/-- `KuduScanBatch::RowPtr::Get<T>(const Slice& col_name, val)`: resolve
the name through the schema and call the index-based getter; a failed
lookup propagates as a column-not-found failure and leaves the
destination untouched. -/
def getByName (sch : Schema) (row : Row) (colName : String) (t : DataType)
    (dest : List Nat) : Except GetError Unit × List Nat :=
  match sch.findColumn colName with
  | some i => get sch row i t dest
  | none => (.error (.columnNotFound colName), dest)

/-- `KuduScanBatch::RowPtr::IsDeleted`: look up the schema's deleted-row
virtual column; fail with `NotFound` when there is none, otherwise read
it as a boolean through the same type- and null-checked getter. -/
def isDeleted (sch : Schema) (row : Row) (dest : List Nat) :
    Except GetError Unit × List Nat :=
  match sch.firstIsDeletedVirtualColumnIdx with
  | none => (.error .isDeletedColumnMissing, dest)
  | some i => get sch row i .IS_DELETED dest

/-- `KuduScanBatch::RowPtr::cell(int)`: the address of the fixed-width
slot of a column, with no null or type check. -/
def cell (sch : Schema) (colIdx : Nat) : Nat :=
  sch.columnOffset colIdx

/-- Little-endian byte-list decoding to a natural number. -/
def leBytesToNat : List Nat → Nat
  | [] => 0
  | b :: bs => b % 256 + 256 * leBytesToNat bs

/-- Little-endian encoding of the low `w` bytes of a natural number. -/
def natToLEBytes : Nat → Nat → List Nat
  | 0, _ => []
  | w + 1, n => n % 256 :: natToLEBytes w (n / 256)

/-- Interpretation of a `w`-byte value as a two's complement signed
integer: values at or above `2 ^ (8 * w - 1)` wrap to negatives. -/
def twosComplement (w : Nat) (n : Nat) : Int :=
  if n < 2 ^ (8 * w - 1) then (n : Int) else (n : Int) - 2 ^ (8 * w)

/-- Reading a `w`-byte little-endian two's complement integer from raw
bytes: the value an `intN_t` destination of `memcpy` holds. -/
def decodeIntLE (w : Nat) (bs : List Nat) : Int :=
  twosComplement w (leBytesToNat bs)

/-- The `w`-byte little-endian two's complement encoding of an integer. -/
def encodeIntLE (w : Nat) (v : Int) : List Nat :=
  natToLEBytes w (v % (2 ^ (8 * w))).toNat

/-- `KuduScanBatch::RowPtr::GetUnscaledDecimal(int, int128_t*)`: switch
on the column's physical decimal type; read through the matching
fixed-width getter and widen (sign-extend) the result to a 128-bit
signed integer, which on the mathematical integers is the identity;
fail with `InvalidArgument` for every non-decimal column type. -/
def getUnscaledDecimal (sch : Schema) (row : Row) (colIdx : Nat) :
    Except GetError Int :=
  let col := sch.column colIdx
  match col.type with
  | .DECIMAL32 =>
    match getBytes sch row colIdx .DECIMAL32 with
    | .ok bs => .ok (decodeIntLE 4 bs)
    | .error e => .error e
  | .DECIMAL64 =>
    match getBytes sch row colIdx .DECIMAL64 with
    | .ok bs => .ok (decodeIntLE 8 bs)
    | .error e => .error e
  | .DECIMAL128 =>
    match getBytes sch row colIdx .DECIMAL128 with
    | .ok bs => .ok (decodeIntLE 16 bs)
    | .error e => .error e
  | t => .error (.notDecimal t.typeName col.name)

/-- `KuduScanBatch::RowPtr::GetUnscaledDecimal(const Slice&, int128_t*)`:
resolve the name and call the index-based accessor. -/
def getUnscaledDecimalByName (sch : Schema) (row : Row) (colName : String) :
    Except GetError Int :=
  match sch.findColumn colName with
  | some i => getUnscaledDecimal sch row i
  | none => .error (.columnNotFound colName)

/-- Claim-side definition, for comparison with `isNull`: the spec's
reading of the null bitmap, "one bit per nullable column, in column
declaration order", so a nullable column's bit index is its ordinal among
the nullable columns. -/
def nullableOrdinal (sch : Schema) (i : Nat) : Nat :=
  ((sch.columns.take i).filter (fun c => c.nullable)).length

/-- Claim-side definition following the spec's words: a nullable column
reads the bit at its nullable ordinal from the bitmap stored right after
the fixed-width region; a non-nullable column is never null. -/
def specIsNull (sch : Schema) (row : Row) (i : Nat) : Bool :=
  if (sch.column i).nullable then
    bitmapTest (fun j => row (sch.byteSize + j)) (nullableOrdinal sch i)
  else false

/-- The decoded contents of one cell as seen by the rendering path: a
null marker or a typed value handed to the per-type formatter. -/
inductive CellValue where
  | nullCell
  | boolCell (b : Bool)
  | intCell (n : Int)
  | strCell (s : String)
  deriving DecidableEq, Repr

/-- C-style escaping of one character for CSV output (the source comment:
"string value handled by c style escaping and csv escaping"). -/
def cEscapeChar (c : Char) : String :=
  if c = '"' then "\\\""
  else if c = '\\' then "\\\\"
  else if c = '\n' then "\\n"
  else String.singleton c

/-- C-style escaping of a string for CSV output. -/
def cEscape (s : String) : String :=
  String.join (s.toList.map cEscapeChar)

/-- Modelled from the spec: `ColumnSchema::DebugCSVCellAppend` is
declared in `kudu/common/schema.h`, whose implementation is not among the
sources here. Per the spec, a string-typed field is rendered
double-quoted with embedded quotes and special characters escaped per CSV
convention; non-string fields render in their natural textual form
without quoting; a null cell renders as the distinguishable marker
`NULL`. -/
def debugCSVCellAppend : CellValue → String
  | .nullCell => "NULL"
  | .boolCell b => if b then "true" else "false"
  | .intCell n => toString n
  | .strCell s => "\"" ++ cEscape s ++ "\""

/-- Modelled from the spec: the process-wide sensitive-value redaction
policy (`kudu/util/logging.h`, not among the sources here). When the
policy is enabled a non-null cell value is replaced by the redaction
marker in rendered output; when disabled the cell renders normally. -/
def redactedCellAppend (redactionEnabled : Bool) (v : CellValue) : String :=
  if redactionEnabled then
    match v with
    | .nullCell => "NULL"
    | _ => "<redacted>"
  else debugCSVCellAppend v

/-- Modelled from the spec: `ScopedDisableRedaction` (`kudu/util/logging.h`,
not among the sources here) disables the process-wide redaction policy
for the dynamic extent of a scope and restores the previous value on
every exit path. With the global made explicit, running a body under the
scope evaluates it with the flag off and hands back the original flag. -/
def withDisabledRedaction {α : Type} (enabled : Bool) (body : Bool → α) :
    α × Bool :=
  (body false, enabled)

/-- The rendered strings of all cells, one per column in schema
declaration order, under a given redaction state. The row's cells are
abstracted as `cells : Nat → CellValue`, the decoded view the per-column
formatter produces from `RowCell` (null bit plus cell pointer). -/
def csvCells (sch : Schema) (cells : Nat → CellValue)
    (redactionEnabled : Bool) : List String :=
  (List.range sch.numColumns).map (fun i => redactedCellAppend redactionEnabled (cells i))

/-- The column loop of `ToCSVRowString`: before every field except the
first, append `","`; then append the field. -/
def csvLoop (fields : List String) (first : Bool) (ret : String) : String :=
  match fields with
  | [] => ret
  | f :: fs => csvLoop fs false (if first then ret ++ f else ret ++ "," ++ f)

/-- `KuduScanBatch::RowPtr::ToCSVRowString`: clear the output buffer,
disable redaction for the duration of the call, then run the column loop
from an empty buffer. Returns the rendered row together with the
redaction flag as it stands after the call. -/
def toCSVRowString (sch : Schema) (cells : Nat → CellValue)
    (redactionEnabled : Bool) (ret : String) : String × Bool :=
  let cleared : String := ""
  withDisabledRedaction redactionEnabled (fun flag =>
    csvLoop (csvCells sch cells flag) true cleared)

/-! Concrete fixtures used by witnesses and counterexamples. -/

/-- Two-column fixture: `a : INT32 NOT NULL`, `b : INT32 NULLABLE`; the
fixed-width region is 8 bytes, the null bitmap starts at byte 8. -/
def schemaAB : Schema := ⟨[⟨"a", .INT32, false⟩, ⟨"b", .INT32, true⟩]⟩

/-- Row bytes for `schemaAB` whose bitmap byte (address 8) has bit 0 set. -/
def rowBit0 : Row := fun a => if a = 8 then 1 else 0

/-- Row bytes for `schemaAB` whose bitmap byte (address 8) has bit 1 set. -/
def rowBit1 : Row := fun a => if a = 8 then 2 else 0

/-- Row whose fixed-width byte at address `a` is `a + 10`. -/
def rowVals : Row := fun a => a + 10

/-- All-zero row bytes. -/
def rowZero : Row := fun _ => 0

/-- One-column fixture: `d : DECIMAL32 NOT NULL`. -/
def schemaDec : Schema := ⟨[⟨"d", .DECIMAL32, false⟩]⟩

/-- Row bytes for `schemaDec` storing the 32-bit two's complement
encoding of `-7`, `f9 ff ff ff`, at offset 0. -/
def rowNeg7 : Row := fun a => [249, 255, 255, 255].getD a 0

/-!  Claims. -/

/-- C1: a typed getter invoked by index on a column whose declared
logical type differs from the requested type fails with the type-mismatch
error whose message carries the requested type name, the column's name
and the column's actual type name; the check precedes the null check (the
row, so in particular its null bitmap, is universally quantified), and
the destination is left untouched. -/
theorem get_type_mismatch (sch : Schema) (row : Row) (dest : List Nat)
    (i : Nat) (t : DataType) (hi : i < sch.numColumns)
    (ht : (sch.column i).type ≠ t) :
    get sch row i t dest =
      (.error (.typeMismatch t.typeName (sch.column i).name
        (sch.column i).type.typeName), dest)
    ∧ (GetError.typeMismatch t.typeName (sch.column i).name
        (sch.column i).type.typeName).message =
      "invalid type " ++ t.typeName ++ " provided for column \x27"
        ++ (sch.column i).name ++ "\x27 (expected "
        ++ (sch.column i).type.typeName ++ ")" := by
  refine ⟨?_, rfl⟩
  simp [get, getBytes, ht]

/-- Witness for C1: requesting INT64 on the INT32 column `a`, on a row
whose value for a nullable column is even null, yields the type-mismatch
failure and an unchanged destination. -/
theorem get_type_mismatch_witness :
    0 < schemaAB.numColumns ∧ (schemaAB.column 0).type ≠ DataType.INT64 ∧
    get schemaAB rowBit0 0 .INT64 [7] =
      (.error (.typeMismatch DataType.INT64.typeName (schemaAB.column 0).name
        (schemaAB.column 0).type.typeName), [7]) :=
  ⟨by decide, by decide,
    (get_type_mismatch schemaAB rowBit0 [7] 0 .INT64 (by decide) (by decide)).1⟩

/-- C2: a typed getter on a nullable column of matching type whose null
bit is set fails with the value-is-null error (the `NotFound` status with
message "column is NULL") and leaves the destination untouched. -/
theorem get_value_is_null (sch : Schema) (row : Row) (dest : List Nat)
    (i : Nat) (t : DataType) (hi : i < sch.numColumns)
    (ht : (sch.column i).type = t) (hn : (sch.column i).nullable = true)
    (hb : isNull sch row i = true) :
    get sch row i t dest = (.error .valueIsNull, dest)
    ∧ GetError.valueIsNull.message = "column is NULL" := by
  refine ⟨?_, rfl⟩
  simp [get, getBytes, ht, hn, hb]

/-- Witness for C2: reading the nullable INT32 column `b` of `schemaAB`
on a row whose bitmap bit 1 is set fails with the value-is-null error and
leaves the destination `[7]` unchanged. -/
theorem get_value_is_null_witness :
    1 < schemaAB.numColumns ∧ (schemaAB.column 1).type = DataType.INT32 ∧
    (schemaAB.column 1).nullable = true ∧ isNull schemaAB rowBit1 1 = true ∧
    get schemaAB rowBit1 1 .INT32 [7] = (.error .valueIsNull, [7]) :=
  ⟨by decide, by decide, by decide, by decide,
    (get_value_is_null schemaAB rowBit1 [7] 1 .INT32 (by decide) (by decide)
      (by decide) (by decide)).1⟩

/-- C3: a typed getter on a column of matching type whose value is not
null succeeds, and the destination receives exactly `typeSize t` bytes
copied from `row_pointer + columnOffset i` — the exact bytes stored at
that offset in the fixed-width row region. -/
theorem get_success (sch : Schema) (row : Row) (dest : List Nat)
    (i : Nat) (t : DataType) (hi : i < sch.numColumns)
    (ht : (sch.column i).type = t) (hb : isNull sch row i = false) :
    get sch row i t dest =
      (.ok (), (List.range t.typeSize).map (fun k => row (sch.columnOffset i + k)))
    ∧ ((List.range t.typeSize).map (fun k => row (sch.columnOffset i + k))).length
        = t.typeSize := by
  refine ⟨?_, by simp⟩
  simp [get, getBytes, ht, hb]

/-- Witness for C3: reading the INT32 column `a` of `schemaAB` on the row
whose byte at address `a` is `a + 10` yields exactly the four bytes at
offset 0. -/
theorem get_success_witness :
    0 < schemaAB.numColumns ∧ (schemaAB.column 0).type = DataType.INT32 ∧
    isNull schemaAB rowVals 0 = false ∧
    get schemaAB rowVals 0 .INT32 [7] = (.ok (), [10, 11, 12, 13]) :=
  ⟨by decide, by decide, by decide, by
    have h := (get_success schemaAB rowVals [7] 0 .INT32 (by decide) (by decide)
      (by decide)).1
    simpa using h⟩

/-- C4, counterexample: the claim's bitmap layout ("one bit per nullable
column, in column declaration order") disagrees with the code. On the
schema `a : INT32 NOT NULL, b : INT32 NULLABLE` and a row whose bitmap
byte is `0b00000001`, the claim's reading gives `true` for column `b`
(its bit index among nullable columns is 0), but the code tests bit
`col_idx = 1` and returns `false`: the bitmap is indexed by the overall
column index, one bit per column. -/
theorem isNull_bitmap_counterexample :
    specIsNull schemaAB rowBit0 1 = true ∧ isNull schemaAB rowBit0 1 = false ∧
    isNull schemaAB rowBit0 1 ≠ specIsNull schemaAB rowBit0 1 := by
  decide

/-- C4, amended: `IsNull` returns `false` for every non-nullable column
regardless of the row's bytes; for a nullable column it returns the bit
at the column's overall declaration index — one bit per column — from the
bitmap stored immediately after the fixed-width region. -/
theorem isNull_spec (sch : Schema) (row : Row) (i : Nat) :
    ((sch.column i).nullable = false → isNull sch row i = false)
    ∧ ((sch.column i).nullable = true →
        isNull sch row i = Nat.testBit (row (sch.byteSize + i / 8)) (i % 8)) := by
  constructor <;> intro h <;> simp [isNull, bitmapTest, h]

/-- Witness for C4's amended theorem: the nullable column `b` of
`schemaAB` reads bit 1 of the bitmap byte at address 8. -/
theorem isNull_spec_witness :
    (schemaAB.column 1).nullable = true ∧
    isNull schemaAB rowBit0 1
      = Nat.testBit (rowBit0 (schemaAB.byteSize + 1 / 8)) (1 % 8) :=
  ⟨by decide, (isNull_spec schemaAB rowBit0 1).2 (by decide)⟩

/-- C5, counterexample: `IsNull(col_name)` does not return a
column-not-found error for an absent name — the source wraps the lookup
in `CHECK_OK`, which is fatal to the process; the `none` result of the
model marks that abort. On `schemaAB` the name "zzz" is absent and the
call aborts rather than returning any result. -/
theorem isNullByName_fatal_counterexample :
    schemaAB.findColumn "zzz" = none
    ∧ isNullByName schemaAB rowZero "zzz" = none := by
  decide

/-- C5, amended: the name-based typed getters and `GetUnscaledDecimal`
return an explicit column-not-found failure (a `NotFound` status) for a
name absent from the schema, leaving the destination untouched; the
`IsNull(col_name)` predicate, however, checks the lookup with `CHECK_OK`
and aborts the process on an absent name instead of returning a result. -/
theorem name_lookup_failure (sch : Schema) (row : Row) (dest : List Nat)
    (colName : String) (t : DataType) (h : sch.findColumn colName = none) :
    getByName sch row colName t dest = (.error (.columnNotFound colName), dest)
    ∧ getUnscaledDecimalByName sch row colName = .error (.columnNotFound colName)
    ∧ (GetError.columnNotFound colName).statusKind = "NotFound"
    ∧ isNullByName sch row colName = none := by
  refine ⟨?_, ?_, rfl, ?_⟩ <;>
    simp [getByName, getUnscaledDecimalByName, isNullByName, h]

/-- Witness for C5's amended theorem at the absent name "zzz". -/
theorem name_lookup_failure_witness :
    schemaAB.findColumn "zzz" = none ∧
    getByName schemaAB rowZero "zzz" .INT32 [7]
      = (.error (.columnNotFound "zzz"), [7]) :=
  ⟨by decide,
    (name_lookup_failure schemaAB rowZero [7] "zzz" .INT32 (by decide)).1⟩

/-- C7: the name-based typed getter and the name-based decimal accessor
are thin wrappers over name→index resolution: when the name resolves to
index `i` they agree exactly (result and destination) with the
index-based calls at `i`, and when the name is absent they fail with the
column-not-found error. -/
theorem getByName_refines (sch : Schema) (row : Row) (dest : List Nat)
    (colName : String) (t : DataType) :
    (∀ i, sch.findColumn colName = some i →
        getByName sch row colName t dest = get sch row i t dest
        ∧ getUnscaledDecimalByName sch row colName = getUnscaledDecimal sch row i)
    ∧ (sch.findColumn colName = none →
        getByName sch row colName t dest = (.error (.columnNotFound colName), dest)
        ∧ getUnscaledDecimalByName sch row colName
            = .error (.columnNotFound colName)) := by
  constructor
  · intro i h
    constructor <;> simp [getByName, getUnscaledDecimalByName, h]
  · intro h
    constructor <;> simp [getByName, getUnscaledDecimalByName, h]

/-- Witness for C7: the name "b" resolves to index 1 in `schemaAB`, and
the name-based read agrees with the index-based read there. -/
theorem getByName_refines_witness :
    schemaAB.findColumn "b" = some 1 ∧
    getByName schemaAB rowBit1 "b" .INT32 [7] = get schemaAB rowBit1 1 .INT32 [7] :=
  ⟨by decide,
    ((getByName_refines schemaAB rowBit1 [7] "b" .INT32).1 1 (by decide)).1⟩

/-- C8: `IsDeleted` on a schema with no deleted-row virtual column fails
with the `NotFound` status "IS_DELETED virtual column not found" (the
spec's `ColumnNotFound` kind) and never crashes — the accessor is a total
function; when the schema designates such a column, `IsDeleted` reads it
as a boolean through the same type- and null-checked getter used by every
other typed getter. -/
theorem isDeleted_spec (sch : Schema) (row : Row) (dest : List Nat) :
    (sch.firstIsDeletedVirtualColumnIdx = none →
        isDeleted sch row dest = (.error .isDeletedColumnMissing, dest)
        ∧ GetError.isDeletedColumnMissing.message
            = "IS_DELETED virtual column not found"
        ∧ GetError.isDeletedColumnMissing.statusKind = "NotFound")
    ∧ (∀ i, sch.firstIsDeletedVirtualColumnIdx = some i →
        isDeleted sch row dest = get sch row i .IS_DELETED dest) := by
  constructor
  · intro h
    exact ⟨by simp [isDeleted, h], rfl, rfl⟩
  · intro i h
    simp [isDeleted, h]

/-- Witness for C8: `schemaAB` has no deleted-row virtual column, and
`IsDeleted` fails with the missing-column error, destination untouched. -/
theorem isDeleted_spec_witness :
    schemaAB.firstIsDeletedVirtualColumnIdx = none ∧
    isDeleted schemaAB rowZero [7] = (.error .isDeletedColumnMissing, [7]) :=
  ⟨by decide, ((isDeleted_spec schemaAB rowZero [7]).1 (by decide)).1⟩

/-- `256 ^ w` is `2 ^ (8 * w)`. -/
theorem pow256_eq (w : Nat) : (256 : Nat) ^ w = 2 ^ (8 * w) := by
  rw [pow_mul]
  norm_num

/-- Decoding the `w`-byte little-endian encoding of `n` recovers
`n % 256 ^ w`. -/
theorem leBytesToNat_natToLEBytes (w : Nat) :
    ∀ n, leBytesToNat (natToLEBytes w n) = n % 256 ^ w := by
  induction w with
  | zero =>
    intro n
    simp [natToLEBytes, leBytesToNat, Nat.mod_one]
  | succ w ih =>
    intro n
    rw [pow_succ, mul_comm, Nat.mod_mul]
    simp only [natToLEBytes, leBytesToNat, ih]
    generalize n / 256 % 256 ^ w = X
    omega

/-- Round trip of the two's complement encoding: for `v` in the signed
`w`-byte range, decoding the `w`-byte little-endian two's complement
encoding of `v` recovers `v` exactly — in particular the sign. -/
theorem decodeIntLE_encodeIntLE (w : Nat) (hw : 0 < w) (v : Int)
    (h1 : -(2 ^ (8 * w - 1)) ≤ v) (h2 : v < 2 ^ (8 * w - 1)) :
    decodeIntLE w (encodeIntLE w v) = v := by
  have hsplit : (2 : Int) ^ (8 * w) = 2 * 2 ^ (8 * w - 1) := by
    have h8 : 8 * w - 1 + 1 = 8 * w := by omega
    calc (2 : Int) ^ (8 * w) = 2 ^ (8 * w - 1 + 1) := by rw [h8]
      _ = 2 ^ (8 * w - 1) * 2 := pow_succ 2 (8 * w - 1)
      _ = 2 * 2 ^ (8 * w - 1) := by ring
  have hhalf : (0 : Int) < 2 ^ (8 * w - 1) := by positivity
  rcases le_or_lt 0 v with hv0 | hv0
  · -- non-negative values are stored and read back directly
    have hvM : v < 2 ^ (8 * w) := by omega
    have he : v % (2 ^ (8 * w)) = v := Int.emod_eq_of_lt hv0 hvM
    have hn : ((v % (2 ^ (8 * w))).toNat : Int) = v := by
      rw [he]
      exact Int.toNat_of_nonneg hv0
    set n : Nat := (v % (2 ^ (8 * w))).toNat with hn_def
    have hn_lt : n < 2 ^ (8 * w - 1) := by
      have : (n : Int) < 2 ^ (8 * w - 1) := by omega
      exact_mod_cast this
    have hn_small : n < 256 ^ w := by
      rw [pow256_eq]
      have : (n : Int) < 2 ^ (8 * w) := by omega
      exact_mod_cast this
    simp only [decodeIntLE, encodeIntLE, ← hn_def, leBytesToNat_natToLEBytes,
      Nat.mod_eq_of_lt hn_small, twosComplement, if_pos hn_lt]
    omega
  · -- negative values wrap to the upper half of the unsigned range
    have hvM : 0 ≤ v + 2 ^ (8 * w) := by omega
    have hvM2 : v + 2 ^ (8 * w) < 2 ^ (8 * w) := by omega
    have he : v % (2 ^ (8 * w)) = v + 2 ^ (8 * w) := by
      have h1' : (v + 2 ^ (8 * w) * 1) % (2 ^ (8 * w)) = v % (2 ^ (8 * w)) :=
        Int.add_mul_emod_self_left v (2 ^ (8 * w)) 1
      rw [← h1', mul_one]
      exact Int.emod_eq_of_lt hvM hvM2
    have hn : ((v % (2 ^ (8 * w))).toNat : Int) = v + 2 ^ (8 * w) := by
      rw [he]
      exact Int.toNat_of_nonneg hvM
    set n : Nat := (v % (2 ^ (8 * w))).toNat with hn_def
    have hn_ge : ¬ n < 2 ^ (8 * w - 1) := by
      have h3 : (2 : Int) ^ (8 * w - 1) ≤ (n : Int) := by omega
      intro hcon
      have : (n : Int) < 2 ^ (8 * w - 1) := by exact_mod_cast hcon
      omega
    have hn_small : n < 256 ^ w := by
      rw [pow256_eq]
      have : (n : Int) < 2 ^ (8 * w) := by omega
      exact_mod_cast this
    simp only [decodeIntLE, encodeIntLE, ← hn_def, leBytesToNat_natToLEBytes,
      Nat.mod_eq_of_lt hn_small, twosComplement, if_neg hn_ge]
    omega

/-- C6: `GetUnscaledDecimal` dispatches on the column's physical decimal
width: on a DECIMAL32/64/128 column of width `w` bytes whose value is not
null, if the `w` bytes stored at the column's offset are the little-endian
two's complement encoding of `v`, the accessor succeeds with exactly the
128-bit (mathematical-integer) value `v` — sign and numeric value
preserved (storing `-7` yields `-7`); on every non-decimal column it
fails with the `InvalidArgument` non-decimal error. -/
theorem getUnscaledDecimal_spec (sch : Schema) (row : Row) (i : Nat)
    (hi : i < sch.numColumns) :
    (∀ w, (sch.column i).type.decimalWidth = some w →
      isNull sch row i = false →
      ∀ v : Int, -(2 ^ (8 * w - 1)) ≤ v → v < 2 ^ (8 * w - 1) →
        (List.range w).map (fun k => row (sch.columnOffset i + k)) = encodeIntLE w v →
        getUnscaledDecimal sch row i = .ok v)
    ∧ ((sch.column i).type.decimalWidth = none →
      getUnscaledDecimal sch row i
        = .error (.notDecimal (sch.column i).type.typeName (sch.column i).name)) := by
  constructor
  · intro w hw hnull v h1 h2 hbytes
    cases ht : (sch.column i).type <;>
      simp only [ht, DataType.decimalWidth, Option.some.injEq,
        reduceCtorEq] at hw <;> try exact absurd hw (by simp)
    case DECIMAL32 =>
      subst hw
      have hg : getBytes sch row i .DECIMAL32 = .ok (encodeIntLE 4 v) := by
        simp [getBytes, ht, hnull, DataType.typeSize]
        exact hbytes
      simp [getUnscaledDecimal, ht, hg,
        decodeIntLE_encodeIntLE 4 (by norm_num) v h1 h2]
    case DECIMAL64 =>
      subst hw
      have hg : getBytes sch row i .DECIMAL64 = .ok (encodeIntLE 8 v) := by
        simp [getBytes, ht, hnull, DataType.typeSize]
        exact hbytes
      simp [getUnscaledDecimal, ht, hg,
        decodeIntLE_encodeIntLE 8 (by norm_num) v h1 h2]
    case DECIMAL128 =>
      subst hw
      have hg : getBytes sch row i .DECIMAL128 = .ok (encodeIntLE 16 v) := by
        simp [getBytes, ht, hnull, DataType.typeSize]
        exact hbytes
      simp [getUnscaledDecimal, ht, hg,
        decodeIntLE_encodeIntLE 16 (by norm_num) v h1 h2]
  · intro hw
    cases ht : (sch.column i).type <;>
      simp [DataType.decimalWidth, ht] at hw ⊢ <;>
      simp [getUnscaledDecimal, ht]

/-- Witness for C6: on the one-column DECIMAL32 schema with the bytes
`f9 ff ff ff` (the 32-bit two's complement encoding of `-7`) stored at
offset 0, `GetUnscaledDecimal` returns the 128-bit value `-7`. -/
theorem getUnscaledDecimal_spec_witness :
    (schemaDec.column 0).type.decimalWidth = some 4 ∧
    getUnscaledDecimal schemaDec rowNeg7 0 = .ok (-7) :=
  ⟨by decide,
    (getUnscaledDecimal_spec schemaDec rowNeg7 0 (by decide)).1 4 (by decide)
      (by decide) (-7) (by norm_num) (by norm_num) (by decide)⟩

/-- The column loop, once past the first field, is the tail of a
comma-intercalation. -/
theorem csvLoop_false_eq_go (fs : List String) :
    ∀ acc, csvLoop fs false acc = String.intercalate.go acc "," fs := by
  induction fs with
  | nil =>
    intro acc
    rfl
  | cons f fs ih =>
    intro acc
    show csvLoop fs false (acc ++ "," ++ f) = String.intercalate.go acc "," (f :: fs)
    rw [ih (acc ++ "," ++ f)]
    rfl

/-- The column loop started on an empty buffer joins the fields with
`","`. -/
theorem csvLoop_true_intercalate (fs : List String) :
    csvLoop fs true "" = String.intercalate "," fs := by
  cases fs with
  | nil => rfl
  | cons f fs =>
    show csvLoop fs false ("" ++ f) = String.intercalate "," (f :: fs)
    rw [String.empty_append, csvLoop_false_eq_go fs f]
    rfl

/-- C9: `ToCSVRowString` clears the output buffer and rebuilds it on
every call — the result does not depend on the buffer's prior contents —
traverses the columns in schema declaration order joining the rendered
fields with `","`, renders string-typed fields double-quoted with
embedded quotes and special characters escaped while non-string fields
render in their natural textual form without quoting, and renders a null
field as the marker `NULL` (so a result is produced even when fields are
null). -/
theorem toCSVRowString_spec (sch : Schema) (cells : Nat → CellValue)
    (g : Bool) (ret ret' : String) :
    toCSVRowString sch cells g ret = toCSVRowString sch cells g ret'
    ∧ (toCSVRowString sch cells g ret).1
        = String.intercalate ","
            ((List.range sch.numColumns).map (fun i => debugCSVCellAppend (cells i)))
    ∧ (∀ s, debugCSVCellAppend (.strCell s) = "\"" ++ cEscape s ++ "\"")
    ∧ (∀ n : Int, debugCSVCellAppend (.intCell n) = toString n)
    ∧ debugCSVCellAppend .nullCell = "NULL" := by
  refine ⟨rfl, ?_, fun s => rfl, fun n => rfl, rfl⟩
  show csvLoop (csvCells sch cells false) true "" = _
  rw [csvLoop_true_intercalate]
  simp [csvCells, redactedCellAppend]

/-- C10: for the duration of a `ToCSVRowString` call the process-wide
redaction policy is disabled and restored on exit: the returned flag
equals the flag on entry, the output equals the output with redaction
globally disabled (so CSV output is never redacted even when redaction is
enabled globally), rendering inside the call sees the policy off, and
with the policy on a string cell would have been redacted. -/
theorem toCSVRowString_redaction (sch : Schema) (cells : Nat → CellValue)
    (g : Bool) (ret : String) :
    (toCSVRowString sch cells g ret).2 = g
    ∧ (toCSVRowString sch cells g ret).1 = (toCSVRowString sch cells false ret).1
    ∧ (∀ v, redactedCellAppend false v = debugCSVCellAppend v)
    ∧ redactedCellAppend true (.strCell "secret") = "<redacted>" :=
  ⟨rfl, rfl, fun v => by simp [redactedCellAppend], rfl⟩

end KuduScanBatch
